import Mathlib

/-!
Shallow embedding of `numba/core/typing/asnumbatype.py` (the
`AsNumbaTypeRegistry` type-annotation resolution engine).

Conventions of the embedding:
* The engine is modelled for a host Python at version >= 3.7, so every
  `_py_version_switch((3, 7), new, old)` in the source is resolved to its
  `new` branch (generic aliases are `typing._GenericAlias` instances, the
  metadata of an `Annotated[...]` descriptor is read from `__metadata__`).
* Python objects that flow through the resolver (type annotations, metadata
  elements, plain ints and strings) are one inductive type `PyType`.
* Exceptions are modelled with `Except`: `Err.typingError` embeds
  `errors.TypingError`, `Err.valueError` embeds the `ValueError` that Python
  raises when a tuple-unpacking assignment such as
  `(element_py,) = py_type.__args__` receives the wrong number of values.
* Methods thread the registry (`self`) explicitly: every embedded method
  takes the registry and returns its (possibly updated) registry next to its
  result, so read-only behaviour is a theorem, not a modelling assumption.
-/

set_option maxHeartbeats 1000000

namespace AsNumbaType

/-- Origin tags of parametrized generic aliases: the possible values of
`py_type.__origin__` that `_builtin_infer` distinguishes (`typing.Union`,
`list`, `dict`, `set`, `tuple`), plus a tag for any other origin. -/
inductive Origin where
  | unionO
  | listO
  | dictO
  | setO
  | tupleO
  | otherO (n : Nat)
deriving DecidableEq, BEq

mutual
/-- Canonical numba types. Modelled from the spec: the canonical type system
is external to the source file (`numba.core.types`), so its constructors
(`Optional`, `ListType`, `DictType`, `Set`, `Array(dtype, ndim, layout)`, the
result of `BaseTuple.from_types`, the scalar types produced by `typeof` on the
seed examples and by `numpy_support.from_dtype`) are modelled as opaque
injective constructors.  The `layout` field of `Array` holds the raw Python
object that the source passes as the `layout` argument (the third metadata
element, or the string `"A"`). -/
inductive CanonicalType where
  | int64
  | float64
  | complex128
  | unicode_type
  | boolean
  | none_type
  | NpScalar (k : Nat)
  | Optional (t : CanonicalType)
  | ListType (t : CanonicalType)
  | DictType (key : CanonicalType) (value : CanonicalType)
  | Set (t : CanonicalType)
  | Tuple (ts : List CanonicalType)
  | Array (dtype : CanonicalType) (ndim : Int) (layout : PyType)

/-- Python-side values fed to the resolver: the primitive host classes seeded
in `lookup` (`int`, `float`, `complex`, `str`, `bool`, `NoneType`), the
`np.ndarray` class, classes that subclass `np.generic`, objects that already
are numba `types.Type` instances, parametrized generic aliases
(`__origin__` + `__args__`), `Annotated[...]` metadata wrappers
(`__args__[0]` + `__metadata__`), plain int and str instances (which occur as
metadata elements), and arbitrary unregistered classes. -/
inductive PyType where
  | intCls
  | floatCls
  | complexCls
  | strCls
  | boolCls
  | noneCls
  | ndarray
  | npgeneric (k : Nat)
  | numba (t : CanonicalType)
  | generic (origin : Origin) (args : List PyType)
  | annotated (inner : PyType) (metadata : List PyType)
  | intLit (i : Int)
  | strLit (s : String)
  | unknownCls (n : Nat)
end

/-- A value returned by a registered resolution function: either a numba
`types.Type` instance or some other (non-canonical) Python object, as a
misbehaving custom strategy may return one (`Value.nonType n` stands for such
an object, e.g. a plain integer). -/
inductive Value where
  | typ (t : CanonicalType)
  | nonType (n : Int)

/-- Embeds Python `isinstance(result, types.Type)`. -/
def Value.isNumbaType : Value → Bool
  | .typ _ => true
  | .nonType _ => false

/-- The payloads of the exception messages raised by the source, modelled
algebraically (one constructor per raise site / format template). -/
inductive ErrMsg where
  | cannotInfer (py_type : PyType)
  | invalidAnnotatedShape
  | unionTooMany
  | unionNotOptional (a : PyType) (b : PyType)
  | shouldReturnNumbaType (v : Value)
  | unpackMismatch (expected : Nat) (got : Nat)

/-- Exception kinds that can escape the resolver: `errors.TypingError`
(raised explicitly by the source) and Python `ValueError` (raised by a
tuple-unpacking assignment that receives the wrong number of values). -/
inductive Err where
  | typingError (m : ErrMsg)
  | valueError (m : ErrMsg)

/-- Discriminator for the exception kind. -/
def Err.isTypingErr : Err → Bool
  | .typingError _ => true
  | .valueError _ => false

/-- An entry of `self.functions`: one of the three bound built-in methods, or
a user-registered strategy function (a pure function per the registry's
contract for strategies: descriptor in, canonical-or-absent out, possibly
raising). -/
inductive Strategy where
  | builtin
  | numbaTypeInfer
  | numpyTypeInfer
  | custom (f : PyType → Except Err (Option Value))

/-- The registry state: `lookup` models the Python dict as its lookup
function (`self.lookup.get(py_type, None)` becomes application), `functions`
models the strategy list. -/
structure AsNumbaTypeRegistry where
  lookup : PyType → Option CanonicalType
  functions : List Strategy

/-- The lookup table built in `AsNumbaTypeRegistry.__init__`: maps
`type(example)` to `typeof(example)` for the examples
`[0, 0.0, complex(0), "numba", True, None]`.  Modelled from the spec: the
`typeof` values for these six examples are the canonical scalar types for
int, float, complex, str, bool and None. -/
def init_lookup : PyType → Option CanonicalType
  | .intCls => some .int64
  | .floatCls => some .float64
  | .complexCls => some .complex128
  | .strCls => some .unicode_type
  | .boolCls => some .boolean
  | .noneCls => some .none_type
  | _ => Option.none

/-- Embeds `_numba_type_infer`: if the descriptor already is a numba
`types.Type` instance, return it, else return None. -/
def numba_type_infer (py_type : PyType) : Option Value :=
  match py_type with
  | .numba t => some (.typ t)
  | _ => Option.none

/-- Embeds `_numpy_type_infer`: if the descriptor is a class subclassing
`np.generic`, return `numpy_support.from_dtype` of it (modelled from the
spec as the opaque scalar-kind mapping `NpScalar`), else return None. -/
def numpy_type_infer (py_type : PyType) : Option Value :=
  match py_type with
  | .npgeneric k => some (.typ (.NpScalar k))
  | _ => Option.none

mutual
/-- Embeds `_builtin_infer` (with `PYVERSION >= (3, 7)`):
returns None unless the descriptor is a `_GenericAlias`; handles the
`Annotated` shapes first (single metadata element: recursive `infer` of it;
two or three metadata elements with inner type `np.ndarray` and an int second
element: an `Array`; anything else: `TypingError`), then dispatches on
`__origin__` for `Union`, `list`, `dict`, `set` and `tuple`. -/
def builtin_infer (r : AsNumbaTypeRegistry) (py_type : PyType) :
    (Except Err (Option CanonicalType)) × AsNumbaTypeRegistry :=
  match py_type with
  | .annotated inner ms =>
    match ms with
    | [m] =>
      (match infer r m with
       | (.error e, r1) => (.error e, r1)
       | (.ok c, r1) => (.ok (some c), r1))
    | [m0, m1] =>
      (match inner, m1 with
       | .ndarray, .intLit n =>
         (match infer r m0 with
          | (.error e, r1) => (.error e, r1)
          | (.ok c, r1) => (.ok (some (.Array c n (.strLit "A"))), r1))
       | _, _ => (.error (.typingError .invalidAnnotatedShape), r))
    | [m0, m1, m2] =>
      (match inner, m1 with
       | .ndarray, .intLit n =>
         (match infer r m0 with
          | (.error e, r1) => (.error e, r1)
          | (.ok c, r1) => (.ok (some (.Array c n m2)), r1))
       | _, _ => (.error (.typingError .invalidAnnotatedShape), r))
    | _ => (.error (.typingError .invalidAnnotatedShape), r)
  | .generic origin args =>
    match origin with
    | .unionO =>
      (match args with
       | [a, .noneCls] =>
         (match infer r a with
          | (.error e, r1) => (.error e, r1)
          | (.ok c, r1) => (.ok (some (.Optional c)), r1))
       | [.noneCls, b] =>
         (match infer r b with
          | (.error e, r1) => (.error e, r1)
          | (.ok c, r1) => (.ok (some (.Optional c)), r1))
       | [a, b] => (.error (.typingError (.unionNotOptional a b)), r)
       | _ => (.error (.typingError .unionTooMany), r))
    | .listO =>
      (match args with
       | [e] =>
         (match infer r e with
          | (.error er, r1) => (.error er, r1)
          | (.ok c, r1) => (.ok (some (.ListType c)), r1))
       | _ => (.error (.valueError (.unpackMismatch 1 args.length)), r))
    | .dictO =>
      (match args with
       | [kp, vp] =>
         (match infer r kp with
          | (.error e, r1) => (.error e, r1)
          | (.ok ck, r1) =>
            (match infer r1 vp with
             | (.error e, r2) => (.error e, r2)
             | (.ok cv, r2) => (.ok (some (.DictType ck cv)), r2)))
       | _ => (.error (.valueError (.unpackMismatch 2 args.length)), r))
    | .setO =>
      (match args with
       | [e] =>
         (match infer r e with
          | (.error er, r1) => (.error er, r1)
          | (.ok c, r1) => (.ok (some (.Set c)), r1))
       | _ => (.error (.valueError (.unpackMismatch 1 args.length)), r))
    | .tupleO =>
      (match infer_list r args with
       | (.error e, r1) => (.error e, r1)
       | (.ok cs, r1) => (.ok (some (.Tuple cs)), r1))
    | .otherO _ => (.ok Option.none, r)
  | _ => (.ok Option.none, r)
termination_by (sizeOf py_type, 1, 0)

/-- Embeds `tuple(map(self.infer, py_type.__args__))`: resolve the argument
descriptors left to right, propagating the first exception. -/
def infer_list (r : AsNumbaTypeRegistry) (tys : List PyType) :
    (Except Err (List CanonicalType)) × AsNumbaTypeRegistry :=
  match tys with
  | [] => (.ok [], r)
  | x :: xs =>
    (match infer r x with
     | (.error e, r1) => (.error e, r1)
     | (.ok c, r1) =>
       (match infer_list r1 xs with
        | (.error e, r2) => (.error e, r2)
        | (.ok cs, r2) => (.ok (c :: cs), r2)))
termination_by (sizeOf tys, 6, 0)

/-- Runs one entry of `self.functions` on the descriptor (`func(py_type)` in
the loop of `try_infer`). -/
def run_function (r : AsNumbaTypeRegistry) (s : Strategy) (py_type : PyType) :
    (Except Err (Option Value)) × AsNumbaTypeRegistry :=
  match s with
  | .builtin =>
    (match builtin_infer r py_type with
     | (.error e, r1) => (.error e, r1)
     | (.ok res, r1) => (.ok (Option.map Value.typ res), r1))
  | .numbaTypeInfer => (.ok (numba_type_infer py_type), r)
  | .numpyTypeInfer => (.ok (numpy_type_infer py_type), r)
  | .custom f => (f py_type, r)
termination_by (sizeOf py_type, 2, 0)

/-- Embeds the `for func in self.functions` loop of `try_infer`: keep the
current `result`, stop as soon as it is non-None, otherwise run the next
function (an exception raised by a function aborts the loop). -/
def infer_loop (r : AsNumbaTypeRegistry) (fs : List Strategy) (py_type : PyType)
    (result : Option Value) : (Except Err (Option Value)) × AsNumbaTypeRegistry :=
  match fs with
  | [] => (.ok result, r)
  | f :: rest =>
    match result with
    | some v => (.ok (some v), r)
    | Option.none =>
      (match run_function r f py_type with
       | (.error e, r1) => (.error e, r1)
       | (.ok res, r1) => infer_loop r1 rest py_type res)
termination_by (sizeOf py_type, 3, fs.length)

/-- Embeds `try_infer`: consult `self.lookup`, then the functions in order;
if the final result is non-None but not a numba `types.Type`, raise
`TypingError` (since only values passing that check are returned, the
successful result type is refined to `Option CanonicalType`). -/
def try_infer (r : AsNumbaTypeRegistry) (py_type : PyType) :
    (Except Err (Option CanonicalType)) × AsNumbaTypeRegistry :=
  match infer_loop r r.functions py_type (Option.map Value.typ (r.lookup py_type)) with
  | (.error e, r1) => (.error e, r1)
  | (.ok Option.none, r1) => (.ok Option.none, r1)
  | (.ok (some (Value.typ c)), r1) => (.ok (some c), r1)
  | (.ok (some (Value.nonType n)), r1) =>
    (.error (.typingError (.shouldReturnNumbaType (.nonType n))), r1)
termination_by (sizeOf py_type, 4, 0)

/-- Embeds `infer`: `try_infer`, raising `TypingError` naming the descriptor
when the result is None. -/
def infer (r : AsNumbaTypeRegistry) (py_type : PyType) :
    (Except Err CanonicalType) × AsNumbaTypeRegistry :=
  match try_infer r py_type with
  | (.error e, r1) => (.error e, r1)
  | (.ok Option.none, r1) => (.error (.typingError (.cannotInfer py_type)), r1)
  | (.ok (some c), r1) => (.ok c, r1)
termination_by (sizeOf py_type, 5, 0)
end

/-- The module-level registry `as_numba_type = AsNumbaTypeRegistry()`:
the seeded lookup table and the three built-in strategies in the order
`__init__` installs them: `[self._builtin_infer, self._numba_type_infer,
self._numpy_type_infer]`. -/
def as_numba_type : AsNumbaTypeRegistry :=
  { lookup := init_lookup
    functions := [Strategy.builtin, Strategy.numbaTypeInfer, Strategy.numpyTypeInfer] }

mutual
/-- Structural equality on descriptors, embedding Python `==` on type
objects (used only by the dict update in `register`). -/
def py_beq : PyType → PyType → Bool
  | .intCls, .intCls => true
  | .floatCls, .floatCls => true
  | .complexCls, .complexCls => true
  | .strCls, .strCls => true
  | .boolCls, .boolCls => true
  | .noneCls, .noneCls => true
  | .ndarray, .ndarray => true
  | .npgeneric k, .npgeneric k2 => k == k2
  | .numba t, .numba t2 => can_beq t t2
  | .generic o a, .generic o2 a2 => (o == o2) && py_beq_list a a2
  | .annotated i m, .annotated i2 m2 => py_beq i i2 && py_beq_list m m2
  | .intLit i, .intLit i2 => i == i2
  | .strLit s, .strLit s2 => s == s2
  | .unknownCls n, .unknownCls n2 => n == n2
  | _, _ => false
termination_by a _ => sizeOf a

/-- Structural equality on canonical types (helper of `py_beq`). -/
def can_beq : CanonicalType → CanonicalType → Bool
  | .int64, .int64 => true
  | .float64, .float64 => true
  | .complex128, .complex128 => true
  | .unicode_type, .unicode_type => true
  | .boolean, .boolean => true
  | .none_type, .none_type => true
  | .NpScalar k, .NpScalar k2 => k == k2
  | .Optional t, .Optional t2 => can_beq t t2
  | .ListType t, .ListType t2 => can_beq t t2
  | .DictType a b, .DictType a2 b2 => can_beq a a2 && can_beq b b2
  | .Set t, .Set t2 => can_beq t t2
  | .Tuple ts, .Tuple ts2 => can_beq_list ts ts2
  | .Array d n l, .Array d2 n2 l2 => can_beq d d2 && (n == n2) && py_beq l l2
  | _, _ => false
termination_by a _ => sizeOf a

/-- Elementwise `py_beq` on lists. -/
def py_beq_list : List PyType → List PyType → Bool
  | [], [] => true
  | x :: xs, y :: ys => py_beq x y && py_beq_list xs ys
  | _, _ => false
termination_by a _ => sizeOf a

/-- Elementwise `can_beq` on lists. -/
def can_beq_list : List CanonicalType → List CanonicalType → Bool
  | [], [] => true
  | x :: xs, y :: ys => can_beq x y && can_beq_list xs ys
  | _, _ => false
termination_by a _ => sizeOf a
end

/-- Dict assignment `self.lookup[py_type] = numba_type` on the
function-modelled dict. -/
def dict_set (m : PyType → Option CanonicalType) (key : PyType)
    (value : CanonicalType) : PyType → Option CanonicalType :=
  fun x => if py_beq x key then some value else m x

/-- Embeds the exact-pair form of `register(py_type, numba_type)` (the
`numba_type is not None` branch; the `assert isinstance(numba_type,
types.Type)` precondition is enforced by the argument type). -/
def register_pair (r : AsNumbaTypeRegistry) (py_type : PyType)
    (numba_type : CanonicalType) : AsNumbaTypeRegistry :=
  { r with lookup := dict_set r.lookup py_type numba_type }

/-- Embeds the decorator form of `register(func)`: append the strategy to
`self.functions`. -/
def register_function (r : AsNumbaTypeRegistry)
    (f : PyType → Except Err (Option Value)) : AsNumbaTypeRegistry :=
  { r with functions := r.functions ++ [Strategy.custom f] }

/-- A registry extended with a misbehaving custom strategy that returns a
plain (non-`types.Type`) value for every descriptor. -/
def bad_strategy_registry : AsNumbaTypeRegistry :=
  register_function as_numba_type (fun _ => .ok (some (.nonType 5)))

/-! ## Helper lemmas -/

/-- None of the embedded methods writes to `self`: every one of them returns
the registry it was given. Proved jointly by the functional induction
principle of the mutual definition. -/
theorem registry_unchanged_all :
    (∀ (r : AsNumbaTypeRegistry) (t : PyType), (builtin_infer r t).2 = r) ∧
    (∀ (r : AsNumbaTypeRegistry) (ts : List PyType), (infer_list r ts).2 = r) ∧
    (∀ (r : AsNumbaTypeRegistry) (t : PyType), (infer r t).2 = r) ∧
    (∀ (r : AsNumbaTypeRegistry) (t : PyType), (try_infer r t).2 = r) ∧
    (∀ (r : AsNumbaTypeRegistry) (fs : List Strategy) (t : PyType) (res : Option Value),
      (infer_loop r fs t res).2 = r) ∧
    (∀ (r : AsNumbaTypeRegistry) (s : Strategy) (t : PyType), (run_function r s t).2 = r) := by
  apply builtin_infer.mutual_induct <;> intros <;>
    simp_all [builtin_infer, infer_list, infer, try_infer, infer_loop, run_function]

/-- The loop returns at once when the running result is already non-None. -/
theorem infer_loop_some (r : AsNumbaTypeRegistry) (fs : List Strategy) (t : PyType)
    (v : Value) : infer_loop r fs t (some v) = (.ok (some v), r) := by
  cases fs <;> simp [infer_loop]

/-- An exact lookup hit makes `try_infer` return it, bypassing the loop. -/
theorem try_infer_lookup_hit (r : AsNumbaTypeRegistry) (t : PyType) (c : CanonicalType)
    (h : r.lookup t = some c) : try_infer r t = (.ok (some c), r) := by
  rw [try_infer.eq_def, h]
  simp [infer_loop_some]

/-- The loop stops at the first function that returns a present result. -/
theorem infer_loop_first_some (r r1 : AsNumbaTypeRegistry) (f : Strategy)
    (rest : List Strategy) (t : PyType) (v : Value)
    (h : run_function r f t = (.ok (some v), r1)) :
    infer_loop r (f :: rest) t Option.none = (.ok (some v), r1) := by
  simp [infer_loop, h, infer_loop_some]

/-- An exception in a function aborts the loop. -/
theorem infer_loop_first_err (r r1 : AsNumbaTypeRegistry) (f : Strategy)
    (rest : List Strategy) (t : PyType) (e : Err)
    (h : run_function r f t = (.error e, r1)) :
    infer_loop r (f :: rest) t Option.none = (.error e, r1) := by
  simp [infer_loop, h]

/-- An absent result moves the loop to the next function. -/
theorem infer_loop_first_none (r r1 : AsNumbaTypeRegistry) (f : Strategy)
    (rest : List Strategy) (t : PyType)
    (h : run_function r f t = (.ok Option.none, r1)) :
    infer_loop r (f :: rest) t Option.none = infer_loop r1 rest t Option.none := by
  simp [infer_loop, h]

/-- `try_infer` through a successful `_builtin_infer` (first in the function
list) on a descriptor with no lookup entry. -/
theorem try_infer_builtin_ok (r r1 : AsNumbaTypeRegistry) (rest : List Strategy)
    (t : PyType) (c : CanonicalType)
    (hl : r.lookup t = Option.none)
    (hf : r.functions = Strategy.builtin :: rest)
    (hb : builtin_infer r t = (.ok (some c), r1)) :
    try_infer r t = (.ok (some c), r1) := by
  have hr : run_function r .builtin t = (.ok (some (Value.typ c)), r1) := by
    simp [run_function, hb]
  rw [try_infer.eq_def, hf, hl]
  rw [show Option.map Value.typ Option.none = Option.none from rfl]
  rw [infer_loop_first_some r r1 .builtin rest t (Value.typ c) hr]

/-- `try_infer` propagates an exception of `_builtin_infer`. -/
theorem try_infer_builtin_err (r r1 : AsNumbaTypeRegistry) (rest : List Strategy)
    (t : PyType) (e : Err)
    (hl : r.lookup t = Option.none)
    (hf : r.functions = Strategy.builtin :: rest)
    (hb : builtin_infer r t = (.error e, r1)) :
    try_infer r t = (.error e, r1) := by
  have hr : run_function r .builtin t = (.error e, r1) := by
    simp [run_function, hb]
  rw [try_infer.eq_def, hf, hl]
  rw [show Option.map Value.typ Option.none = Option.none from rfl]
  rw [infer_loop_first_err r r1 .builtin rest t e hr]

/-- `infer` returns a present `try_infer` result unchanged. -/
theorem infer_ok_of_try (r r1 : AsNumbaTypeRegistry) (t : PyType) (c : CanonicalType)
    (h : try_infer r t = (.ok (some c), r1)) : infer r t = (.ok c, r1) := by
  rw [infer.eq_def, h]

/-- `infer` propagates a `try_infer` exception. -/
theorem infer_err_of_try (r r1 : AsNumbaTypeRegistry) (t : PyType) (e : Err)
    (h : try_infer r t = (.error e, r1)) : infer r t = (.error e, r1) := by
  rw [infer.eq_def, h]

/-- `infer` turns an absent `try_infer` result into the TypingError naming
the descriptor. -/
theorem infer_none_of_try (r r1 : AsNumbaTypeRegistry) (t : PyType)
    (h : try_infer r t = (.ok Option.none, r1)) :
    infer r t = (.error (.typingError (.cannotInfer t)), r1) := by
  rw [infer.eq_def, h]

/-- `infer` through a successful `_builtin_infer` on a lookup miss. -/
theorem infer_builtin_ok (r r1 : AsNumbaTypeRegistry) (rest : List Strategy)
    (t : PyType) (c : CanonicalType)
    (hl : r.lookup t = Option.none)
    (hf : r.functions = Strategy.builtin :: rest)
    (hb : builtin_infer r t = (.ok (some c), r1)) :
    infer r t = (.ok c, r1) :=
  infer_ok_of_try r r1 t c (try_infer_builtin_ok r r1 rest t c hl hf hb)

/-- `infer` propagates a `_builtin_infer` exception on a lookup miss. -/
theorem infer_builtin_err (r r1 : AsNumbaTypeRegistry) (rest : List Strategy)
    (t : PyType) (e : Err)
    (hl : r.lookup t = Option.none)
    (hf : r.functions = Strategy.builtin :: rest)
    (hb : builtin_infer r t = (.error e, r1)) :
    infer r t = (.error e, r1) :=
  infer_err_of_try r r1 t e (try_infer_builtin_err r r1 rest t e hl hf hb)

/-- Unfolding of the single-metadata `Annotated` case. -/
theorem builtin_annotated_single (r : AsNumbaTypeRegistry) (inner m : PyType) :
    builtin_infer r (.annotated inner [m]) =
      (match infer r m with
       | (.error e, r1) => (.error e, r1)
       | (.ok c, r1) => (.ok (some c), r1)) := by
  rw [builtin_infer.eq_def]

/-- Unfolding of the `Annotated[np.ndarray, dtype, ndim]` case. -/
theorem builtin_annotated_array2 (r : AsNumbaTypeRegistry) (m0 : PyType) (n : Int) :
    builtin_infer r (.annotated .ndarray [m0, .intLit n]) =
      (match infer r m0 with
       | (.error e, r1) => (.error e, r1)
       | (.ok c, r1) => (.ok (some (.Array c n (.strLit "A"))), r1)) := by
  rw [builtin_infer.eq_def]

/-- Unfolding of the `Annotated[np.ndarray, dtype, ndim, layout]` case. -/
theorem builtin_annotated_array3 (r : AsNumbaTypeRegistry) (m0 m2 : PyType) (n : Int) :
    builtin_infer r (.annotated .ndarray [m0, .intLit n, m2]) =
      (match infer r m0 with
       | (.error e, r1) => (.error e, r1)
       | (.ok c, r1) => (.ok (some (.Array c n m2)), r1)) := by
  rw [builtin_infer.eq_def]

/-- Unfolding of the union case whose second member is `NoneType`. -/
theorem builtin_union_noneR (r : AsNumbaTypeRegistry) (a : PyType) :
    builtin_infer r (.generic .unionO [a, .noneCls]) =
      (match infer r a with
       | (.error e, r1) => (.error e, r1)
       | (.ok c, r1) => (.ok (some (.Optional c)), r1)) := by
  simp [builtin_infer]

/-- Unfolding of the union case whose first member only is `NoneType`. -/
theorem builtin_union_noneL (r : AsNumbaTypeRegistry) (b : PyType)
    (hb : b ≠ .noneCls) :
    builtin_infer r (.generic .unionO [.noneCls, b]) =
      (match infer r b with
       | (.error e, r1) => (.error e, r1)
       | (.ok c, r1) => (.ok (some (.Optional c)), r1)) := by
  simp [builtin_infer, hb]

/-- Unfolding of the union case with two non-`NoneType` members. -/
theorem builtin_union_other (r : AsNumbaTypeRegistry) (a b : PyType)
    (ha : a ≠ .noneCls) (hb : b ≠ .noneCls) :
    builtin_infer r (.generic .unionO [a, b]) =
      (.error (.typingError (.unionNotOptional a b)), r) := by
  simp [builtin_infer, ha, hb]

/-- Unfolding of the union case with an argument count other than two. -/
theorem builtin_union_arity (r : AsNumbaTypeRegistry) (args : List PyType)
    (h : args.length ≠ 2) :
    builtin_infer r (.generic .unionO args) =
      (.error (.typingError .unionTooMany), r) := by
  rcases args with _ | ⟨a, _ | ⟨b, _ | ⟨c, rest⟩⟩⟩
  · simp [builtin_infer]
  · simp [builtin_infer]
  · simp at h
  · simp [builtin_infer]

/-- Unfolding of the metadata wrapper with an empty metadata sequence. -/
theorem builtin_annotated_empty (r : AsNumbaTypeRegistry) (inner : PyType) :
    builtin_infer r (.annotated inner []) =
      (.error (.typingError .invalidAnnotatedShape), r) := by
  simp [builtin_infer]

/-- Unfolding of the metadata wrapper with four or more metadata elements. -/
theorem builtin_annotated_toolong (r : AsNumbaTypeRegistry) (inner m0 m1 m2 m3 : PyType)
    (rest : List PyType) :
    builtin_infer r (.annotated inner (m0 :: m1 :: m2 :: m3 :: rest)) =
      (.error (.typingError .invalidAnnotatedShape), r) := by
  simp [builtin_infer]

/-- Unfolding of a list-origin generic whose argument list does not have
exactly one element: the unpacking assignment raises `ValueError`. -/
theorem builtin_list_arity (r : AsNumbaTypeRegistry) (a b : PyType)
    (rest : List PyType) :
    builtin_infer r (.generic .listO (a :: b :: rest)) =
      (.error (.valueError (.unpackMismatch 1 (a :: b :: rest).length)), r) := by
  simp [builtin_infer]

/-- The inert descriptors (no lookup entry, matched by no built-in strategy)
resolve to absent on the seeded registry; `unknownCls` is the generic case. -/
theorem try_infer_default_unknown (k : Nat) :
    try_infer as_numba_type (.unknownCls k) = (.ok Option.none, as_numba_type) := by
  simp [try_infer, infer_loop, run_function, builtin_infer,
    numba_type_infer, numpy_type_infer, as_numba_type, init_lookup]

/-- A plain int object resolves to nothing on the seeded registry, so
`infer` raises the TypingError naming it. -/
theorem infer_default_intLit (i : Int) :
    infer as_numba_type (.intLit i) =
      (.error (.typingError (.cannotInfer (.intLit i))), as_numba_type) := by
  simp [infer, try_infer, infer_loop, run_function, builtin_infer,
    numba_type_infer, numpy_type_infer, as_numba_type, init_lookup]

/-! ## Claims -/

/-- C1, counterexample: the claimed strategy order — passthrough
(`_numba_type_infer`), then native-scalar-kind (`_numpy_type_infer`), then
generic/metadata-shape (`_builtin_infer`) — is not the order `__init__`
installs. -/
theorem C1_counterexample :
    ¬ (as_numba_type.functions =
        [Strategy.numbaTypeInfer, Strategy.numpyTypeInfer, Strategy.builtin]) := by
  simp [as_numba_type]

/-- C1 (amended): at construction the strategy list contains exactly the
three built-ins, but in the order (1) generic/metadata-shape
(`_builtin_infer`), (2) passthrough-if-already-canonical
(`_numba_type_infer`), (3) native-scalar-kind (`_numpy_type_infer`); on a
lookup miss, `try_infer` consults exactly that list in that order. -/
theorem C1_strategy_order :
    as_numba_type.functions =
      [Strategy.builtin, Strategy.numbaTypeInfer, Strategy.numpyTypeInfer] ∧
    (∀ t : PyType, as_numba_type.lookup t = Option.none →
      try_infer as_numba_type t =
        (match infer_loop as_numba_type
            [Strategy.builtin, Strategy.numbaTypeInfer, Strategy.numpyTypeInfer] t
            Option.none with
         | (.error e, r1) => (.error e, r1)
         | (.ok Option.none, r1) => (.ok Option.none, r1)
         | (.ok (some (Value.typ c)), r1) => (.ok (some c), r1)
         | (.ok (some (Value.nonType n)), r1) =>
           (.error (.typingError (.shouldReturnNumbaType (.nonType n))), r1))) := by
  refine ⟨rfl, ?_⟩
  intro t hl
  rw [try_infer.eq_def, hl]
  rfl

/-- C1, witness of the amended claim at the descriptor `unknownCls 0`. -/
theorem C1_witness :
    as_numba_type.lookup (.unknownCls 0) = Option.none ∧
    try_infer as_numba_type (.unknownCls 0) =
      (match infer_loop as_numba_type
          [Strategy.builtin, Strategy.numbaTypeInfer, Strategy.numpyTypeInfer]
          (.unknownCls 0) Option.none with
       | (.error e, r1) => (.error e, r1)
       | (.ok Option.none, r1) => (.ok Option.none, r1)
       | (.ok (some (Value.typ c)), r1) => (.ok (some c), r1)
       | (.ok (some (Value.nonType n)), r1) =>
         (.error (.typingError (.shouldReturnNumbaType (.nonType n))), r1)) :=
  ⟨rfl, C1_strategy_order.2 (.unknownCls 0) rfl⟩

/-- C2, counterexample: the wrapper `Annotated[np.ndarray, 2, 2]` satisfies
the claim's guard (two metadata elements, array sentinel inner type, integer
first metadata element), so the claim promises an `Array` result; the code
instead resolves the first metadata element as the dtype, which fails with a
TypingError naming the plain int object `2`. -/
theorem C2_counterexample :
    (infer as_numba_type (.annotated .ndarray [.intLit 2, .intLit 2])).1 =
      .error (.typingError (.cannotInfer (.intLit 2))) := by
  have hb : builtin_infer as_numba_type (.annotated .ndarray [.intLit 2, .intLit 2]) =
      (.error (.typingError (.cannotInfer (.intLit 2))), as_numba_type) := by
    rw [builtin_annotated_array2, infer_default_intLit]
  rw [infer_builtin_err as_numba_type as_numba_type
    [Strategy.numbaTypeInfer, Strategy.numpyTypeInfer]
    (.annotated .ndarray [.intLit 2, .intLit 2]) _ rfl rfl hb]

/-- C2 (amended): for every metadata wrapper whose metadata sequence has two
or three elements, whose wrapped inner type is the array sentinel, and whose
second metadata element is an integer, resolution returns an Array whose
dtype is the recursive resolution of the first metadata element (resolution
failures propagating), whose ndim is that second-element integer, and whose
layout is the third metadata element if present, else the string "A". -/
theorem C2_array_wrapper_resolution :
    (∀ (m0 : PyType) (n : Int),
      (infer as_numba_type (.annotated .ndarray [m0, .intLit n])).1 =
        Except.map (fun c => CanonicalType.Array c n (.strLit "A"))
          (infer as_numba_type m0).1) ∧
    (∀ (m0 m2 : PyType) (n : Int),
      (infer as_numba_type (.annotated .ndarray [m0, .intLit n, m2])).1 =
        Except.map (fun c => CanonicalType.Array c n m2)
          (infer as_numba_type m0).1) := by
  constructor
  · intro m0 n
    rcases hm : infer as_numba_type m0 with ⟨res, r1⟩
    cases res with
    | ok c =>
      have hb := builtin_annotated_array2 as_numba_type m0 n
      rw [hm] at hb
      simp only [] at hb
      rw [infer_builtin_ok as_numba_type r1
        [Strategy.numbaTypeInfer, Strategy.numpyTypeInfer]
        (.annotated .ndarray [m0, .intLit n]) _ rfl rfl hb]
      simp [Except.map]
    | error e =>
      have hb := builtin_annotated_array2 as_numba_type m0 n
      rw [hm] at hb
      simp only [] at hb
      rw [infer_builtin_err as_numba_type r1
        [Strategy.numbaTypeInfer, Strategy.numpyTypeInfer]
        (.annotated .ndarray [m0, .intLit n]) _ rfl rfl hb]
      simp [Except.map]
  · intro m0 m2 n
    rcases hm : infer as_numba_type m0 with ⟨res, r1⟩
    cases res with
    | ok c =>
      have hb := builtin_annotated_array3 as_numba_type m0 m2 n
      rw [hm] at hb
      simp only [] at hb
      rw [infer_builtin_ok as_numba_type r1
        [Strategy.numbaTypeInfer, Strategy.numpyTypeInfer]
        (.annotated .ndarray [m0, .intLit n, m2]) _ rfl rfl hb]
      simp [Except.map]
    | error e =>
      have hb := builtin_annotated_array3 as_numba_type m0 m2 n
      rw [hm] at hb
      simp only [] at hb
      rw [infer_builtin_err as_numba_type r1
        [Strategy.numbaTypeInfer, Strategy.numpyTypeInfer]
        (.annotated .ndarray [m0, .intLit n, m2]) _ rfl rfl hb]
      simp [Except.map]

/-- C3: a metadata wrapper around the array sentinel with metadata
`(dtype_descriptor, 2)` resolves to `Array(resolve(dtype_descriptor), 2,
"A")`, and with metadata `(dtype_descriptor, 2, "C")` to the same Array with
layout "C". -/
theorem C3_array_shape (d : PyType) (c : CanonicalType)
    (h : (infer as_numba_type d).1 = .ok c) :
    (infer as_numba_type (.annotated .ndarray [d, .intLit 2])).1 =
      .ok (.Array c 2 (.strLit "A")) ∧
    (infer as_numba_type (.annotated .ndarray [d, .intLit 2, .strLit "C"])).1 =
      .ok (.Array c 2 (.strLit "C")) := by
  rcases hd : infer as_numba_type d with ⟨res, r1⟩
  rw [hd] at h
  simp only [] at h
  subst h
  constructor
  · have hb := builtin_annotated_array2 as_numba_type d 2
    rw [hd] at hb
    simp only [] at hb
    rw [infer_builtin_ok as_numba_type r1
      [Strategy.numbaTypeInfer, Strategy.numpyTypeInfer]
      (.annotated .ndarray [d, .intLit 2]) _ rfl rfl hb]
  · have hb := builtin_annotated_array3 as_numba_type d (.strLit "C") 2
    rw [hd] at hb
    simp only [] at hb
    rw [infer_builtin_ok as_numba_type r1
      [Strategy.numbaTypeInfer, Strategy.numpyTypeInfer]
      (.annotated .ndarray [d, .intLit 2, .strLit "C"]) _ rfl rfl hb]

/-- C3, witness at the float class as dtype descriptor. -/
theorem C3_witness :
    (infer as_numba_type .floatCls).1 = .ok .float64 ∧
    (infer as_numba_type (.annotated .ndarray [.floatCls, .intLit 2])).1 =
      .ok (.Array .float64 2 (.strLit "A")) ∧
    (infer as_numba_type (.annotated .ndarray [.floatCls, .intLit 2, .strLit "C"])).1 =
      .ok (.Array .float64 2 (.strLit "C")) := by
  have h : (infer as_numba_type .floatCls).1 = .ok .float64 := by
    rw [infer_ok_of_try as_numba_type as_numba_type .floatCls .float64
      (try_infer_lookup_hit as_numba_type .floatCls .float64 rfl)]
  exact ⟨h, C3_array_shape .floatCls .float64 h⟩

/-- C4: an exact-match lookup entry wins immediately: `try_infer` returns it
for any strategy list whatsoever, in particular after registering a custom
strategy (which could resolve the same descriptor differently). -/
theorem C4_lookup_precedence (r : AsNumbaTypeRegistry) (t : PyType)
    (c : CanonicalType) (h : r.lookup t = some c)
    (f : PyType → Except Err (Option Value)) (fs : List Strategy) :
    (try_infer r t).1 = .ok (some c) ∧
    (try_infer (register_function r f) t).1 = .ok (some c) ∧
    (try_infer { r with functions := fs } t).1 = .ok (some c) := by
  refine ⟨?_, ?_, ?_⟩
  · rw [try_infer_lookup_hit r t c h]
  · rw [try_infer_lookup_hit (register_function r f) t c h]
  · rw [try_infer_lookup_hit { r with functions := fs } t c h]

/-- C4, witness: the int class is in the seeded lookup table and keeps
resolving to int64 even after registering a custom strategy that returns
float64 for every descriptor. -/
theorem C4_witness :
    as_numba_type.lookup .intCls = some .int64 ∧
    (try_infer as_numba_type .intCls).1 = .ok (some .int64) ∧
    (try_infer (register_function as_numba_type
        (fun _ => .ok (some (.typ .float64)))) .intCls).1 = .ok (some .int64) :=
  ⟨rfl,
   (C4_lookup_precedence as_numba_type .intCls .int64 rfl
     (fun _ => .ok (some (.typ .float64))) []).1,
   (C4_lookup_precedence as_numba_type .intCls .int64 rfl
     (fun _ => .ok (some (.typ .float64))) []).2.1⟩

/-- C5: a union-shaped descriptor with an argument count other than two
fails with TypingError; a two-member union with exactly one `NoneType`
member resolves to Optional of the other member's resolution; a two-member
union with no `NoneType` member fails with TypingError. -/
theorem C5_union_resolution :
    (∀ args : List PyType, args.length ≠ 2 →
      (infer as_numba_type (.generic .unionO args)).1 =
        .error (.typingError .unionTooMany)) ∧
    (∀ a : PyType, a ≠ .noneCls →
      (infer as_numba_type (.generic .unionO [a, .noneCls])).1 =
        Except.map CanonicalType.Optional (infer as_numba_type a).1 ∧
      (infer as_numba_type (.generic .unionO [.noneCls, a])).1 =
        Except.map CanonicalType.Optional (infer as_numba_type a).1) ∧
    (∀ a b : PyType, a ≠ .noneCls → b ≠ .noneCls →
      (infer as_numba_type (.generic .unionO [a, b])).1 =
        .error (.typingError (.unionNotOptional a b))) := by
  refine ⟨?_, ?_, ?_⟩
  · intro args h
    rw [infer_builtin_err as_numba_type as_numba_type
      [Strategy.numbaTypeInfer, Strategy.numpyTypeInfer] (.generic .unionO args) _
      rfl rfl (builtin_union_arity as_numba_type args h)]
  · intro a ha
    constructor
    · rcases hm : infer as_numba_type a with ⟨res, r1⟩
      cases res with
      | ok c =>
        have hb := builtin_union_noneR as_numba_type a
        rw [hm] at hb
        simp only [] at hb
        rw [infer_builtin_ok as_numba_type r1
          [Strategy.numbaTypeInfer, Strategy.numpyTypeInfer]
          (.generic .unionO [a, .noneCls]) _ rfl rfl hb]
        simp [Except.map]
      | error e =>
        have hb := builtin_union_noneR as_numba_type a
        rw [hm] at hb
        simp only [] at hb
        rw [infer_builtin_err as_numba_type r1
          [Strategy.numbaTypeInfer, Strategy.numpyTypeInfer]
          (.generic .unionO [a, .noneCls]) _ rfl rfl hb]
        simp [Except.map]
    · rcases hm : infer as_numba_type a with ⟨res, r1⟩
      cases res with
      | ok c =>
        have hb := builtin_union_noneL as_numba_type a ha
        rw [hm] at hb
        simp only [] at hb
        rw [infer_builtin_ok as_numba_type r1
          [Strategy.numbaTypeInfer, Strategy.numpyTypeInfer]
          (.generic .unionO [.noneCls, a]) _ rfl rfl hb]
        simp [Except.map]
      | error e =>
        have hb := builtin_union_noneL as_numba_type a ha
        rw [hm] at hb
        simp only [] at hb
        rw [infer_builtin_err as_numba_type r1
          [Strategy.numbaTypeInfer, Strategy.numpyTypeInfer]
          (.generic .unionO [.noneCls, a]) _ rfl rfl hb]
        simp [Except.map]
  · intro a b ha hb
    rw [infer_builtin_err as_numba_type as_numba_type
      [Strategy.numbaTypeInfer, Strategy.numpyTypeInfer] (.generic .unionO [a, b]) _
      rfl rfl (builtin_union_other as_numba_type a b ha hb)]

/-- C5, witness: a three-member union fails, `Union[int, None]` gives
Optional(int64), `Union[int, float]` fails as non-optional. -/
theorem C5_witness :
    ([PyType.intCls, PyType.floatCls, PyType.strCls].length ≠ 2) ∧
    (infer as_numba_type
        (.generic .unionO [.intCls, .floatCls, .strCls])).1 =
      .error (.typingError .unionTooMany) ∧
    (infer as_numba_type (.generic .unionO [.intCls, .noneCls])).1 =
      Except.map CanonicalType.Optional (infer as_numba_type .intCls).1 ∧
    (infer as_numba_type (.generic .unionO [.intCls, .floatCls])).1 =
      .error (.typingError (.unionNotOptional .intCls .floatCls)) :=
  ⟨by simp,
   C5_union_resolution.1 [.intCls, .floatCls, .strCls] (by simp),
   (C5_union_resolution.2.1 .intCls (by simp)).1,
   C5_union_resolution.2.2 .intCls .floatCls (by simp) (by simp)⟩

/-- C6: when `try_infer` yields absent, `infer` raises the TypingError
naming the descriptor; when `try_infer` yields a present result, `infer`
returns exactly it; an arbitrary unregistered class yields absent on the
seeded registry. -/
theorem C6_absent_and_present :
    (∀ (r : AsNumbaTypeRegistry) (t : PyType),
      (try_infer r t).1 = .ok Option.none →
      (infer r t).1 = .error (.typingError (.cannotInfer t))) ∧
    (∀ (r : AsNumbaTypeRegistry) (t : PyType) (c : CanonicalType),
      (try_infer r t).1 = .ok (some c) → (infer r t).1 = .ok c) ∧
    (∀ k : Nat, (try_infer as_numba_type (.unknownCls k)).1 = .ok Option.none) := by
  refine ⟨?_, ?_, ?_⟩
  · intro r t h
    rcases ht : try_infer r t with ⟨res, r1⟩
    rw [ht] at h
    simp only [] at h
    subst h
    rw [infer_none_of_try r r1 t ht]
  · intro r t c h
    rcases ht : try_infer r t with ⟨res, r1⟩
    rw [ht] at h
    simp only [] at h
    subst h
    rw [infer_ok_of_try r r1 t c ht]
  · intro k
    rw [try_infer_default_unknown k]

/-- C6, witness at the unregistered class 0 and the int class. -/
theorem C6_witness :
    (try_infer as_numba_type (.unknownCls 0)).1 = .ok Option.none ∧
    (infer as_numba_type (.unknownCls 0)).1 =
      .error (.typingError (.cannotInfer (.unknownCls 0))) ∧
    (infer as_numba_type .intCls).1 = .ok .int64 :=
  ⟨C6_absent_and_present.2.2 0,
   C6_absent_and_present.1 as_numba_type (.unknownCls 0)
     (C6_absent_and_present.2.2 0),
   C6_absent_and_present.2.1 as_numba_type .intCls .int64
     (by rw [try_infer_lookup_hit as_numba_type .intCls .int64 rfl])⟩

/-- C7: if the first function to produce a present result returns a value
that is not a numba type (the lookup having missed), `try_infer` raises
TypingError and never returns the malformed value. -/
theorem C7_non_canonical_result (r : AsNumbaTypeRegistry) (t : PyType)
    (v : Value) (hv : v.isNumbaType = false)
    (h : (infer_loop r r.functions t (Option.map Value.typ (r.lookup t))).1 =
      .ok (some v)) :
    (try_infer r t).1 = .error (.typingError (.shouldReturnNumbaType v)) ∧
    ∀ c : CanonicalType, (try_infer r t).1 ≠ .ok (some c) := by
  rcases hl : infer_loop r r.functions t (Option.map Value.typ (r.lookup t))
    with ⟨res, r1⟩
  rw [hl] at h
  simp only [] at h
  subst h
  cases v with
  | typ c => simp [Value.isNumbaType] at hv
  | nonType n =>
    have ht : (try_infer r t).1 =
        .error (.typingError (.shouldReturnNumbaType (.nonType n))) := by
      rw [try_infer.eq_def, hl]
    exact ⟨ht, fun c hc => by rw [ht] at hc; exact Except.noConfusion hc⟩

/-- C7, witness: a registry extended with a strategy returning the plain
integer 5 makes `try_infer` raise rather than return it. -/
theorem C7_witness :
    ((Value.nonType 5).isNumbaType = false) ∧
    (infer_loop bad_strategy_registry bad_strategy_registry.functions
        (.unknownCls 7)
        (Option.map Value.typ (bad_strategy_registry.lookup (.unknownCls 7)))).1 =
      .ok (some (.nonType 5)) ∧
    (try_infer bad_strategy_registry (.unknownCls 7)).1 =
      .error (.typingError (.shouldReturnNumbaType (.nonType 5))) := by
  have hloop : (infer_loop bad_strategy_registry bad_strategy_registry.functions
      (.unknownCls 7)
      (Option.map Value.typ (bad_strategy_registry.lookup (.unknownCls 7)))).1 =
      .ok (some (.nonType 5)) := by
    simp [bad_strategy_registry, register_function, as_numba_type, init_lookup,
      infer_loop, run_function, builtin_infer, numba_type_infer, numpy_type_infer]
  exact ⟨rfl, hloop,
    (C7_non_canonical_result bad_strategy_registry (.unknownCls 7)
      (.nonType 5) rfl hloop).1⟩

/-- C8, counterexample: a list-origin generic descriptor with two type
arguments makes resolution fail with a ValueError (from the unpacking
assignment), not a TypingError, so not every failure is a TypingError. -/
theorem C8_counterexample :
    (infer as_numba_type (.generic .listO [.intCls, .intCls])).1 =
      .error (.valueError (.unpackMismatch 1 2)) ∧
    (Err.valueError (.unpackMismatch 1 2)).isTypingErr = false := by
  refine ⟨?_, rfl⟩
  rw [infer_builtin_err as_numba_type as_numba_type
    [Strategy.numbaTypeInfer, Strategy.numpyTypeInfer]
    (.generic .listO [.intCls, .intCls]) _ rfl rfl
    (builtin_list_arity as_numba_type .intCls .intCls [])]
  rfl

/-- C8 (amended): an unresolvable descriptor, a malformed union (wrong arity
or non-optional), a malformed metadata-wrapper shape and a strategy
returning a non-canonical value all fail with the single kind TypingError;
but a container-generic descriptor with the wrong number of type arguments
instead raises a ValueError from the unpacking assignment. -/
theorem C8_failure_kinds :
    (∀ (r : AsNumbaTypeRegistry) (t : PyType),
      (try_infer r t).1 = .ok Option.none →
      (infer r t).1 = .error (.typingError (.cannotInfer t))) ∧
    (∀ args : List PyType, args.length ≠ 2 →
      (infer as_numba_type (.generic .unionO args)).1 =
        .error (.typingError .unionTooMany)) ∧
    (∀ a b : PyType, a ≠ .noneCls → b ≠ .noneCls →
      (infer as_numba_type (.generic .unionO [a, b])).1 =
        .error (.typingError (.unionNotOptional a b))) ∧
    (∀ inner : PyType,
      (infer as_numba_type (.annotated inner [])).1 =
        .error (.typingError .invalidAnnotatedShape)) ∧
    (∀ (r : AsNumbaTypeRegistry) (t : PyType) (v : Value),
      v.isNumbaType = false →
      (infer_loop r r.functions t (Option.map Value.typ (r.lookup t))).1 =
        .ok (some v) →
      (try_infer r t).1 = .error (.typingError (.shouldReturnNumbaType v))) ∧
    (∀ (a b : PyType) (rest : List PyType),
      (infer as_numba_type (.generic .listO (a :: b :: rest))).1 =
        .error (.valueError (.unpackMismatch 1 (a :: b :: rest).length))) := by
  refine ⟨?_, ?_, ?_, ?_, ?_, ?_⟩
  · intro r t h
    rcases ht : try_infer r t with ⟨res, r1⟩
    rw [ht] at h
    simp only [] at h
    subst h
    rw [infer_none_of_try r r1 t ht]
  · intro args h
    rw [infer_builtin_err as_numba_type as_numba_type
      [Strategy.numbaTypeInfer, Strategy.numpyTypeInfer] (.generic .unionO args) _
      rfl rfl (builtin_union_arity as_numba_type args h)]
  · intro a b ha hb
    rw [infer_builtin_err as_numba_type as_numba_type
      [Strategy.numbaTypeInfer, Strategy.numpyTypeInfer] (.generic .unionO [a, b]) _
      rfl rfl (builtin_union_other as_numba_type a b ha hb)]
  · intro inner
    rw [infer_builtin_err as_numba_type as_numba_type
      [Strategy.numbaTypeInfer, Strategy.numpyTypeInfer] (.annotated inner []) _
      rfl rfl (builtin_annotated_empty as_numba_type inner)]
  · intro r t v hv h
    rcases hl : infer_loop r r.functions t (Option.map Value.typ (r.lookup t))
      with ⟨res, r1⟩
    rw [hl] at h
    simp only [] at h
    subst h
    cases v with
    | typ c => simp [Value.isNumbaType] at hv
    | nonType n => rw [try_infer.eq_def, hl]
  · intro a b rest
    rw [infer_builtin_err as_numba_type as_numba_type
      [Strategy.numbaTypeInfer, Strategy.numpyTypeInfer]
      (.generic .listO (a :: b :: rest)) _ rfl rfl
      (builtin_list_arity as_numba_type a b rest)]

/-- C8, witness instantiating each hypothesis of the amended claim. -/
theorem C8_witness :
    (infer as_numba_type (.unknownCls 1)).1 =
      .error (.typingError (.cannotInfer (.unknownCls 1))) ∧
    (infer as_numba_type (.generic .unionO [])).1 =
      .error (.typingError .unionTooMany) ∧
    (infer as_numba_type (.generic .unionO [.strCls, .floatCls])).1 =
      .error (.typingError (.unionNotOptional .strCls .floatCls)) ∧
    (try_infer bad_strategy_registry (.unknownCls 8)).1 =
      .error (.typingError (.shouldReturnNumbaType (.nonType 5))) := by
  have hloop : (infer_loop bad_strategy_registry bad_strategy_registry.functions
      (.unknownCls 8)
      (Option.map Value.typ (bad_strategy_registry.lookup (.unknownCls 8)))).1 =
      .ok (some (.nonType 5)) := by
    simp [bad_strategy_registry, register_function, as_numba_type, init_lookup,
      infer_loop, run_function, builtin_infer, numba_type_infer, numpy_type_infer]
  exact ⟨C8_failure_kinds.1 as_numba_type (.unknownCls 1)
      (by rw [try_infer_default_unknown 1]),
    C8_failure_kinds.2.1 [] (by simp),
    C8_failure_kinds.2.2.1 .strCls .floatCls (by simp) (by simp),
    C8_failure_kinds.2.2.2.2.1 bad_strategy_registry (.unknownCls 8)
      (.nonType 5) rfl hloop⟩

/-- C9: a metadata wrapper with a single metadata element resolves exactly
as that element does (the wrapped inner type is ignored). -/
theorem C9_single_metadata_roundtrip (inner m : PyType) :
    (infer as_numba_type (.annotated inner [m])).1 = (infer as_numba_type m).1 := by
  rcases hm : infer as_numba_type m with ⟨res, r1⟩
  cases res with
  | ok c =>
    have hb := builtin_annotated_single as_numba_type inner m
    rw [hm] at hb
    simp only [] at hb
    rw [infer_builtin_ok as_numba_type r1
      [Strategy.numbaTypeInfer, Strategy.numpyTypeInfer]
      (.annotated inner [m]) _ rfl rfl hb]
  | error e =>
    have hb := builtin_annotated_single as_numba_type inner m
    rw [hm] at hb
    simp only [] at hb
    rw [infer_builtin_err as_numba_type r1
      [Strategy.numbaTypeInfer, Strategy.numpyTypeInfer]
      (.annotated inner [m]) _ rfl rfl hb]

/-- C10: resolution is read-only on the registry: `try_infer` and `infer`
return the registry state they were given, on success and on failure alike
(the lookup table and the strategy list are fields of that state). -/
theorem C10_resolution_read_only (r : AsNumbaTypeRegistry) (t : PyType) :
    (try_infer r t).2 = r ∧ (infer r t).2 = r ∧
    (try_infer r t).2.lookup = r.lookup ∧ (try_infer r t).2.functions = r.functions ∧
    (infer r t).2.lookup = r.lookup ∧ (infer r t).2.functions = r.functions := by
  have h1 := registry_unchanged_all.2.2.2.1 r t
  have h2 := registry_unchanged_all.2.2.1 r t
  exact ⟨h1, h2, by rw [h1], by rw [h1], by rw [h2], by rw [h2]⟩

end AsNumbaType
